import Mathlib

/-!
Verification of the route-resolution core of the LastMile repository.

The embedded code is the `RoutingMachine` component (provider fetch with a
two-tier fallback chain, in the unnamed App source) and the `RouteTracker`
component (shortest-route selection among provider alternatives, in
`src/frontend/src/components/RouteTracker.jsx`).

Numbers are modelled as exact rationals (the JavaScript sources only combine
the inputs with +, -, *, / and comparisons, so the algebraic structure of the
computation is captured faithfully by ℚ).  The Distance Estimator
(`L.latLng#distanceTo`, the great-circle distance supplied by the Leaflet
library, outside this repository) is abstracted as an explicit function
argument `dist : Coord → Coord → ℚ`; properties of the great-circle metric
that a claim relies on (non-negativity, vanishing on the diagonal, triangle
inequality) appear as hypotheses on `dist`.
-/

namespace LastMile

/-- A WGS84 latitude/longitude pair, as handled by the components. -/
structure Coord where
  lat : ℚ
  lng : ℚ
deriving DecidableEq, Repr

/-- The `padding` (px, one side) and `maxZoom` options passed to
`map.fitBounds` alongside a resolved route. -/
structure RenderHints where
  padding : ℕ
  maxZoom : ℕ
deriving DecidableEq, Repr

/-- Which branch of `RoutingMachine` produced the resolved route. -/
inductive Provenance where
  | provider
  | fallbackTier1
  | fallbackTier2
deriving DecidableEq, Repr

/-- One invocation of the `onRoutesFound` callback of `RoutingMachine`:
the `{distance, duration, coordinates}` payload, together with the
provenance of the route and the `fitBounds` rendering hints emitted
alongside it. -/
structure Emission where
  distance : ℚ
  duration : ℚ
  coordinates : List Coord
  provenance : Provenance
  hints : RenderHints
deriving DecidableEq, Repr

/-- An OSRM candidate as consumed by `fetchRoute`: `route.distance`,
`route.duration`, and `route.geometry.coordinates`, the latter in GeoJSON
`[lng, lat]` order (swapped by `fetchRoute` before use). -/
structure OsrmRoute where
  distance : ℚ
  duration : ℚ
  geometry : List (ℚ × ℚ)
deriving DecidableEq, Repr

/-- Outcome of the provider round trip in `fetchRoute`: `failure` covers a
network error or a body that does not parse (the `catch` branch), while
`success rs` covers a parsed body whose `routes` field is `rs` (a body with
no `routes` field behaves like `success []`, both take the `else` branch). -/
inductive ProviderResult where
  | failure
  | success (routes : List OsrmRoute)
deriving DecidableEq, Repr

/-- `createSimpleDirectRoute` (tier-2 fallback): a straight 2-point line,
straight-line distance, duration at an assumed 40 km/h, and
`fitBounds` options `padding: [150, 150], maxZoom: 1`. -/
def createSimpleDirectRoute (dist : Coord → Coord → ℚ) (o d : Coord) : Emission :=
  { distance := dist o d
    duration := dist o d / (40 * 1000 / 3600)
    coordinates := [⟨o.lat, o.lng⟩, ⟨d.lat, d.lng⟩]
    provenance := .fallbackTier2
    hints := { padding := 150, maxZoom := 1 } }

/-- The `wayPoints` array built by `createFallbackRoute`: start, two
intermediate points at fractions 0.33 and 0.66 of the coordinate
differences, and end. -/
def fallbackWaypoints (o d : Coord) : List Coord :=
  [⟨o.lat, o.lng⟩,
   ⟨o.lat + (d.lat - o.lat) * (33 / 100), o.lng + (d.lng - o.lng) * (33 / 100)⟩,
   ⟨o.lat + (d.lat - o.lat) * (66 / 100), o.lng + (d.lng - o.lng) * (66 / 100)⟩,
   ⟨d.lat, d.lng⟩]

/-- The `totalDistance` accumulation loop of `createFallbackRoute`: the sum
of `distanceTo` over consecutive pairs of a point list. -/
def pathDistance (dist : Coord → Coord → ℚ) : List Coord → ℚ
  | a :: b :: rest => dist a b + pathDistance dist (b :: rest)
  | _ => 0

/-- `createFallbackRoute` (tier-1 fallback): the 4-point interpolated path,
its piecewise `distanceTo` sum, duration at an assumed 40 km/h, and
`fitBounds` options `padding: [150, 150], maxZoom: 13`. -/
def createFallbackRoute (dist : Coord → Coord → ℚ) (o d : Coord) : Emission :=
  { distance := pathDistance dist (fallbackWaypoints o d)
    duration := pathDistance dist (fallbackWaypoints o d) / (40 * 1000 / 3600)
    coordinates := fallbackWaypoints o d
    provenance := .fallbackTier1
    hints := { padding := 150, maxZoom := 13 } }

/-- `fetchRoute` of `RoutingMachine`, after the provider round trip is
resolved to a `ProviderResult`: a non-empty `routes` array yields
`routes[0]` with its GeoJSON coordinates swapped to `[lat, lng]` and
`fitBounds` options `padding: [50, 50], maxZoom: 15`; otherwise control
reaches `createFallbackRoute`, whose own `catch` branch (modelled by the
`tier1Fails` flag, covering a failure of its map-rendering calls) falls
through to `createSimpleDirectRoute`. -/
def fetchRoute (dist : Coord → Coord → ℚ) (o d : Coord)
    (pr : ProviderResult) (tier1Fails : Bool) : Emission :=
  match pr with
  | .success (route :: _) =>
      { distance := route.distance
        duration := route.duration
        coordinates := route.geometry.map (fun c => ⟨c.2, c.1⟩)
        provenance := .provider
        hints := { padding := 50, maxZoom := 15 } }
  | _ =>
      if tier1Fails then createSimpleDirectRoute dist o d
      else createFallbackRoute dist o d

/-- Number of provider round trips started by one run of the
`RoutingMachine` effect: the guard `!waypoints || waypoints.length < 2`
returns before `fetchRoute` is invoked. -/
def routingMachineProviderCalls (waypoints : List Coord) : ℕ :=
  match waypoints with
  | _ :: _ :: _ => 1
  | _ => 0

/-- The sequence of `onRoutesFound` invocations produced by one run of the
`RoutingMachine` effect on the given waypoints: nothing when the guard
`!waypoints || waypoints.length < 2` trips, otherwise the single emission
of `fetchRoute` on the first two waypoints. -/
def routingMachineEmissions (dist : Coord → Coord → ℚ) (waypoints : List Coord)
    (pr : ProviderResult) (tier1Fails : Bool) : List Emission :=
  match waypoints with
  | o :: d :: _ => [fetchRoute dist o d pr tier1Fails]
  | _ => []

/-- A `leaflet-routing-machine` route as consumed by the `routesfound`
handler of `RouteTracker`: `summary.totalDistance`, `summary.totalTime`,
and the path coordinates. -/
structure LrmRoute where
  totalDistance : ℚ
  totalTime : ℚ
  coordinates : List Coord
deriving DecidableEq, Repr

/-- The reducer of the `routes.reduce` call in `RouteTracker`: keep the
running minimum, replacing it only on a strictly smaller distance. -/
def runningMin (minRoute currentRoute : LrmRoute) : LrmRoute :=
  if currentRoute.totalDistance < minRoute.totalDistance then currentRoute else minRoute

/-- The shortest-route selection of the `routesfound` handler:
`routes.reduce(runningMin, routes[0])` for a non-empty array (JavaScript
`reduce` with an initial value visits every element, including index 0),
and no selection for an empty array (the handler returns early). -/
def selectShortest (routes : List LrmRoute) : Option LrmRoute :=
  match routes with
  | [] => none
  | r0 :: _ => some (routes.foldl runningMin r0)

/-- The `{distance, duration, coordinates}` payload passed to
`onRoutesFound` by `RouteTracker`. -/
structure TrackEmission where
  distance : ℚ
  duration : ℚ
  coordinates : List Coord
deriving DecidableEq, Repr

/-- Number of routing-control requests started by one run of the
`RouteTracker` effect: the guard `!waypoints || waypoints.length < 2`
returns before `L.Routing.control` is created. -/
def routeTrackerProviderCalls (waypoints : List Coord) : ℕ :=
  if waypoints.length < 2 then 0 else 1

/-- The sequence of `onRoutesFound` invocations produced by one run of the
`RouteTracker` effect, given the routes the routing control would report:
nothing when the waypoint guard trips, nothing when zero routes are found
(the handler returns early), otherwise the selected shortest route. -/
def routeTrackerEmissions (waypoints : List Coord) (routes : List LrmRoute) :
    List TrackEmission :=
  if waypoints.length < 2 then []
  else
    match selectShortest routes with
    | none => []
    | some m => [⟨m.totalDistance, m.totalTime, m.coordinates⟩]

/-- Linear interpolation of two coordinates at parameter `t`, used to state
properties of the tier-1 path. -/
def lerpCoord (o d : Coord) (t : ℚ) : Coord :=
  ⟨o.lat + (d.lat - o.lat) * t, o.lng + (d.lng - o.lng) * t⟩

/-- The discrete metric on coordinates, a concrete instance of the Distance
Estimator contract used to separate the piecewise path sum from the direct
distance. -/
def discreteDist (p q : Coord) : ℚ :=
  if p = q then 0 else 1

/-- The taxicab metric on coordinates, a concrete computable instance of the
Distance Estimator contract (non-negative, zero on the diagonal, triangle
inequality) used to instantiate metric hypotheses. -/
def taxiDist (p q : Coord) : ℚ :=
  |p.lat - q.lat| + |p.lng - q.lng|

/-- Spec-side selector for the route-selection step: the earliest-listed
candidate whose total distance is a minimum over all candidates. -/
def isMinIn (r : LrmRoute) (routes : List LrmRoute) : Bool :=
  routes.all (fun s => decide (r.totalDistance ≤ s.totalDistance))

/-- Spec-side selector: scan the candidates in listed order and return the
first one whose total distance is minimal among all of them (the stable,
first-minimum-wins selection, with no further tie-break). -/
def firstMinByDistance (routes : List LrmRoute) : Option LrmRoute :=
  routes.find? (fun r => isMinIn r routes)

theorem taxiDist_self (p : Coord) : taxiDist p p = 0 := by
  simp [taxiDist]

theorem taxiDist_nonneg (p q : Coord) : 0 ≤ taxiDist p q :=
  add_nonneg (abs_nonneg _) (abs_nonneg _)

theorem taxiDist_triangle (p q r : Coord) :
    taxiDist p r ≤ taxiDist p q + taxiDist q r := by
  have h1 := abs_sub_le p.lat q.lat r.lat
  have h2 := abs_sub_le p.lng q.lng r.lng
  simp only [taxiDist]
  linarith

/-- C2: for every pair of coordinates handed to the resolver, and for every
outcome of the provider round trip (network failure, body without usable
routes, or any candidate list) and of the tier-1 rendering step, the
`RoutingMachine` effect emits exactly one resolved route through the
`onRoutesFound` callback: provider-level failures are absorbed by the
fallback chain and the callback is never left uncalled. -/
theorem routingMachine_exactly_one_emission (dist : Coord → Coord → ℚ)
    (o d : Coord) (rest : List Coord) (pr : ProviderResult) (tier1Fails : Bool) :
    (routingMachineEmissions dist (o :: d :: rest) pr tier1Fails).length = 1 := by
  rfl

/-- C3 counterexample: for origin (0, 0) and destination (3, 3), the second
point of the tier-1 fallback path is (99/100, 99/100), not the exact
one-third interpolation point (1, 1) stated by the claim. -/
theorem fallbackWaypoints_not_exact_thirds :
    (fallbackWaypoints ⟨0, 0⟩ ⟨3, 3⟩).get? 1 ≠ some (lerpCoord ⟨0, 0⟩ ⟨3, 3⟩ (1 / 3)) := by
  simp only [fallbackWaypoints, lerpCoord, List.get?]
  intro h
  have h2 : (0 : ℚ) + (3 - 0) * (33 / 100) = 0 + (3 - 0) * (1 / 3) :=
    congrArg Coord.lat (Option.some.inj h)
  norm_num at h2

/-- C3 amended: for every origin and destination, the tier-1 fallback path
has exactly 4 points, its first element is the origin, its last element is
the destination, and its two middle points are the linear interpolations at
fractions 0.33 and 0.66 (not exactly 1/3 and 2/3) of the way from origin to
destination. -/
theorem fallbackWaypoints_structure (o d : Coord) :
    (fallbackWaypoints o d).length = 4 ∧
    (fallbackWaypoints o d).head? = some o ∧
    (fallbackWaypoints o d).getLast? = some d ∧
    (fallbackWaypoints o d).get? 1 = some (lerpCoord o d (33 / 100)) ∧
    (fallbackWaypoints o d).get? 2 = some (lerpCoord o d (66 / 100)) :=
  ⟨rfl, rfl, rfl, rfl, rfl⟩

/-- C4: for every distance function and every pair of coordinates, the
distance reported by the tier-1 fallback is the sum of the pairwise
distances between consecutive points of its 4-point path; and (second
conjunct) this piecewise sum is not in general the single direct
origin-to-destination distance, witnessed by the discrete metric. -/
theorem createFallbackRoute_distance_piecewise :
    (∀ (dist : Coord → Coord → ℚ) (o d : Coord),
      (createFallbackRoute dist o d).distance =
        dist o (lerpCoord o d (33 / 100)) +
        dist (lerpCoord o d (33 / 100)) (lerpCoord o d (66 / 100)) +
        dist (lerpCoord o d (66 / 100)) d) ∧
    (createFallbackRoute discreteDist ⟨0, 0⟩ ⟨1, 1⟩).distance ≠
      discreteDist ⟨0, 0⟩ ⟨1, 1⟩ := by
  constructor
  · intro dist o d
    simp only [createFallbackRoute, pathDistance, fallbackWaypoints, lerpCoord]
    ring
  · show discreteDist _ _ + (discreteDist _ _ + (discreteDist _ _ + 0)) ≠ discreteDist _ _
    norm_num [discreteDist, Coord.mk.injEq]

/-- C5: in both fallback tiers the reported duration in seconds is exactly
the reported distance in meters divided by 40 km/h expressed in meters per
second; no rounding is applied at this stage (minute-level rounding happens
only downstream, at display time). -/
theorem fallback_duration_at_40kmh (dist : Coord → Coord → ℚ) (o d : Coord) :
    (createFallbackRoute dist o d).duration =
      (createFallbackRoute dist o d).distance / (40 * 1000 / 3600) ∧
    (createSimpleDirectRoute dist o d).duration =
      (createSimpleDirectRoute dist o d).distance / (40 * 1000 / 3600) :=
  ⟨rfl, rfl⟩

/-- C6: for every distance function and every pair of coordinates, the
tier-2 straight-line fallback reports the 2-point path [origin, destination]
and the direct origin-to-destination distance. -/
theorem createSimpleDirectRoute_path_and_distance (dist : Coord → Coord → ℚ)
    (o d : Coord) :
    (createSimpleDirectRoute dist o d).coordinates = [o, d] ∧
    (createSimpleDirectRoute dist o d).distance = dist o d :=
  ⟨rfl, rfl⟩

/-- C7 counterexample: the tier-1 fallback emits `fitBounds` hints with
padding 150 and maxZoom 13, not the padding of approximately 50 px and
maximum zoom of approximately 15 that the claim groups it with. -/
theorem tier1_hints_not_provider_hints :
    (createFallbackRoute (fun _ _ => 0) ⟨0, 0⟩ ⟨1, 1⟩).hints.padding = 150 ∧
    (createFallbackRoute (fun _ _ => 0) ⟨0, 0⟩ ⟨1, 1⟩).hints.maxZoom = 13 ∧
    (createFallbackRoute (fun _ _ => 0) ⟨0, 0⟩ ⟨1, 1⟩).hints.padding ≠ 50 ∧
    (createFallbackRoute (fun _ _ => 0) ⟨0, 0⟩ ⟨1, 1⟩).hints.maxZoom ≠ 15 :=
  ⟨rfl, rfl, by decide, by decide⟩

/-- C7 amended: a provider-sourced route uses padding 50 px and maxZoom 15;
both fallback tiers use padding 150 px, with maxZoom 13 at tier-1 and
maxZoom 1 at tier-2. -/
theorem hints_by_tier (dist : Coord → Coord → ℚ) (o d : Coord)
    (rc : OsrmRoute) (rs : List OsrmRoute) (tier1Fails : Bool) :
    (fetchRoute dist o d (.success (rc :: rs)) tier1Fails).hints = ⟨50, 15⟩ ∧
    (createFallbackRoute dist o d).hints = ⟨150, 13⟩ ∧
    (createSimpleDirectRoute dist o d).hints = ⟨150, 1⟩ :=
  ⟨rfl, rfl, rfl⟩

/-- C9: when the waypoint list is missing (empty) or has fewer than two
points, both route-handling effects are no-ops: no provider round trip is
started, no fallback route is synthesized, and the resolution callback is
never invoked. -/
theorem no_resolution_below_two_waypoints (dist : Coord → Coord → ℚ)
    (waypoints : List Coord) (pr : ProviderResult) (tier1Fails : Bool)
    (routes : List LrmRoute) (h : waypoints.length < 2) :
    routingMachineProviderCalls waypoints = 0 ∧
    routingMachineEmissions dist waypoints pr tier1Fails = [] ∧
    routeTrackerProviderCalls waypoints = 0 ∧
    routeTrackerEmissions waypoints routes = [] := by
  cases waypoints with
  | nil => exact ⟨rfl, rfl, rfl, rfl⟩
  | cons a t =>
    cases t with
    | nil => exact ⟨rfl, rfl, rfl, rfl⟩
    | cons b t2 =>
      simp only [List.length_cons] at h
      omega

/-- Witness for C9 at the empty waypoint list. -/
theorem no_resolution_below_two_waypoints_witness :
    ([] : List Coord).length < 2 ∧
    (routingMachineProviderCalls [] = 0 ∧
     routingMachineEmissions (fun _ _ => 0) [] .failure false = [] ∧
     routeTrackerProviderCalls [] = 0 ∧
     routeTrackerEmissions [] [] = []) :=
  ⟨by decide, no_resolution_below_two_waypoints (fun _ _ => 0) [] .failure false [] (by decide)⟩

/-- C10: for every distance function satisfying the Distance Estimator
contract of the great-circle metric (zero on the diagonal, non-negative,
triangle inequality), the tier-1 piecewise path distance is at least the
tier-2 direct distance, both are non-negative, and both are exactly 0 when
origin and destination coincide. -/
theorem tier1_distance_ge_tier2 (dist : Coord → Coord → ℚ)
    (hself : ∀ p, dist p p = 0)
    (hnonneg : ∀ p q, 0 ≤ dist p q)
    (htri : ∀ p q r, dist p r ≤ dist p q + dist q r)
    (o d : Coord) :
    (createSimpleDirectRoute dist o d).distance ≤ (createFallbackRoute dist o d).distance ∧
    0 ≤ (createSimpleDirectRoute dist o d).distance ∧
    0 ≤ (createFallbackRoute dist o d).distance ∧
    (o = d → (createSimpleDirectRoute dist o d).distance = 0 ∧
      (createFallbackRoute dist o d).distance = 0) := by
  have hd2 : (createSimpleDirectRoute dist o d).distance = dist o d := rfl
  have hd1 : (createFallbackRoute dist o d).distance =
      dist o (lerpCoord o d (33 / 100)) +
        (dist (lerpCoord o d (33 / 100)) (lerpCoord o d (66 / 100)) +
          (dist (lerpCoord o d (66 / 100)) d + 0)) := rfl
  have hp : ∀ (c : Coord) (t : ℚ), lerpCoord c c t = c := by
    intro c t
    cases c
    simp [lerpCoord]
  refine ⟨?_, ?_, ?_, ?_⟩
  · rw [hd1, hd2]
    have t1 := htri o (lerpCoord o d (33 / 100)) d
    have t2 := htri (lerpCoord o d (33 / 100)) (lerpCoord o d (66 / 100)) d
    linarith
  · rw [hd2]
    exact hnonneg o d
  · rw [hd1]
    have n1 := hnonneg o (lerpCoord o d (33 / 100))
    have n2 := hnonneg (lerpCoord o d (33 / 100)) (lerpCoord o d (66 / 100))
    have n3 := hnonneg (lerpCoord o d (66 / 100)) d
    linarith
  · intro he
    subst he
    constructor
    · rw [hd2]
      exact hself o
    · rw [hd1, hp, hp]
      simp [hself]

/-- Witness for C10 with the taxicab metric at origin (0, 0) and
destination (3, 4). -/
theorem tier1_distance_ge_tier2_witness :
    (createSimpleDirectRoute taxiDist ⟨0, 0⟩ ⟨3, 4⟩).distance ≤
      (createFallbackRoute taxiDist ⟨0, 0⟩ ⟨3, 4⟩).distance ∧
    0 ≤ (createSimpleDirectRoute taxiDist ⟨0, 0⟩ ⟨3, 4⟩).distance ∧
    0 ≤ (createFallbackRoute taxiDist ⟨0, 0⟩ ⟨3, 4⟩).distance ∧
    ((⟨0, 0⟩ : Coord) = ⟨3, 4⟩ →
      (createSimpleDirectRoute taxiDist ⟨0, 0⟩ ⟨3, 4⟩).distance = 0 ∧
      (createFallbackRoute taxiDist ⟨0, 0⟩ ⟨3, 4⟩).distance = 0) :=
  tier1_distance_ge_tier2 taxiDist taxiDist_self taxiDist_nonneg taxiDist_triangle ⟨0, 0⟩ ⟨3, 4⟩

theorem foldl_runningMin_split : ∀ (l : List LrmRoute) (init : LrmRoute),
    ∃ l₁ l₂, init :: l = l₁ ++ (l.foldl runningMin init) :: l₂ ∧
      (∀ r ∈ init :: l, (l.foldl runningMin init).totalDistance ≤ r.totalDistance) ∧
      (∀ r ∈ l₁, (l.foldl runningMin init).totalDistance < r.totalDistance) := by
  intro l
  induction l with
  | nil =>
    intro init
    refine ⟨[], [], rfl, ?_, ?_⟩
    · intro r hr
      rw [List.mem_singleton] at hr
      exact hr ▸ le_refl _
    · intro r hr
      exact absurd hr (List.not_mem_nil r)
  | cons c rest ih =>
    intro init
    simp only [List.foldl_cons]
    by_cases h : c.totalDistance < init.totalDistance
    · have hrm : runningMin init c = c := if_pos h
      rw [hrm]
      obtain ⟨l₁, l₂, hdec, hmin, hstrict⟩ := ih c
      refine ⟨init :: l₁, l₂, ?_, ?_, ?_⟩
      · rw [List.cons_append, ← hdec]
      · intro r hr
        rcases List.mem_cons.mp hr with hri | hrt
        · have hc : (rest.foldl runningMin c).totalDistance ≤ c.totalDistance :=
            hmin c (List.mem_cons_self c rest)
          exact hri ▸ le_of_lt (lt_of_le_of_lt hc h)
        · exact hmin r hrt
      · intro r hr
        rcases List.mem_cons.mp hr with hri | hrt
        · have hc : (rest.foldl runningMin c).totalDistance ≤ c.totalDistance :=
            hmin c (List.mem_cons_self c rest)
          exact hri ▸ lt_of_le_of_lt hc h
        · exact hstrict r hrt
    · have hrm : runningMin init c = init := if_neg h
      rw [hrm]
      obtain ⟨l₁, l₂, hdec, hmin, hstrict⟩ := ih init
      have hle : init.totalDistance ≤ c.totalDistance := le_of_not_lt h
      cases l₁ with
      | nil =>
        simp only [List.nil_append] at hdec
        injection hdec with hm hl₂
        refine ⟨[], c :: rest, ?_, ?_, ?_⟩
        · simp only [List.nil_append]
          rw [← hm]
        · intro r hr
          have hminit : (rest.foldl runningMin init).totalDistance ≤ init.totalDistance :=
            hmin init (List.mem_cons_self init rest)
          rcases List.mem_cons.mp hr with hri | hrt
          · exact hri ▸ hminit
          · rcases List.mem_cons.mp hrt with hrc | hrr
            · exact hrc ▸ le_trans hminit hle
            · exact hmin r (List.mem_cons_of_mem init hrr)
        · intro r hr
          exact absurd hr (List.not_mem_nil r)
      | cons a l₁' =>
        simp only [List.cons_append] at hdec
        injection hdec with ha hrest
        have ha2 : a = init := ha.symm
        have hstra : (rest.foldl runningMin init).totalDistance < init.totalDistance :=
          ha2 ▸ hstrict a (List.mem_cons_self a l₁')
        refine ⟨init :: c :: l₁', l₂, ?_, ?_, ?_⟩
        · simp only [List.cons_append]
          conv_lhs => rw [hrest]
        · intro r hr
          rcases List.mem_cons.mp hr with hri | hrt
          · exact hri ▸ hmin init (List.mem_cons_self init rest)
          · rcases List.mem_cons.mp hrt with hrc | hrr
            · exact hrc ▸ le_of_lt (lt_of_lt_of_le hstra hle)
            · exact hmin r (List.mem_cons_of_mem init hrr)
        · intro r hr
          rcases List.mem_cons.mp hr with hri | hrt
          · exact hri ▸ hstra
          · rcases List.mem_cons.mp hrt with hrc | hrr
            · exact hrc ▸ lt_of_lt_of_le hstra hle
            · exact hstrict r (List.mem_cons_of_mem a hrr)

theorem selectShortest_split (r0 : LrmRoute) (rest : List LrmRoute) :
    ∃ m l₁ l₂, selectShortest (r0 :: rest) = some m ∧ r0 :: rest = l₁ ++ m :: l₂ ∧
      (∀ r ∈ r0 :: rest, m.totalDistance ≤ r.totalDistance) ∧
      (∀ r ∈ l₁, m.totalDistance < r.totalDistance) := by
  obtain ⟨l₁, l₂, hdec, hmin, hstrict⟩ := foldl_runningMin_split (r0 :: rest) r0
  have hsel : selectShortest (r0 :: rest) = some ((r0 :: rest).foldl runningMin r0) := rfl
  cases l₁ with
  | nil =>
    simp only [List.nil_append] at hdec
    injection hdec with hm hl₂
    refine ⟨_, [], rest, hsel, ?_, ?_, ?_⟩
    · simp only [List.nil_append]
      rw [← hm]
    · intro r hr
      exact hmin r (List.mem_cons_of_mem r0 hr)
    · intro r hr
      exact absurd hr (List.not_mem_nil r)
  | cons a l₁' =>
    simp only [List.cons_append] at hdec
    injection hdec with ha hrest
    refine ⟨_, l₁', l₂, hsel, hrest, ?_, ?_⟩
    · intro r hr
      exact hmin r (List.mem_cons_of_mem r0 hr)
    · intro r hr
      exact hstrict r (List.mem_cons_of_mem a hr)

/-- C1: for every non-empty candidate list, the route selected by the
`RouteTracker` reduce scan is a listed candidate whose total distance is a
minimum over all candidates, and every candidate listed before it has a
strictly greater total distance, so on exact ties the earliest-listed
candidate wins (stable, first-minimum-wins linear scan). -/
theorem selectShortest_min_stable (routes : List LrmRoute) (h : routes ≠ []) :
    ∃ m l₁ l₂, selectShortest routes = some m ∧ routes = l₁ ++ m :: l₂ ∧
      (∀ r ∈ routes, m.totalDistance ≤ r.totalDistance) ∧
      (∀ r ∈ l₁, m.totalDistance < r.totalDistance) := by
  cases routes with
  | nil => exact absurd rfl h
  | cons r0 rest => exact selectShortest_split r0 rest

/-- Witness for C1 on a concrete two-candidate list. -/
theorem selectShortest_min_stable_witness :
    ([⟨5, 10, []⟩, ⟨3, 7, []⟩] : List LrmRoute) ≠ [] ∧
    ∃ m l₁ l₂, selectShortest [⟨5, 10, []⟩, ⟨3, 7, []⟩] = some m ∧
      ([⟨5, 10, []⟩, ⟨3, 7, []⟩] : List LrmRoute) = l₁ ++ m :: l₂ ∧
      (∀ r ∈ ([⟨5, 10, []⟩, ⟨3, 7, []⟩] : List LrmRoute),
        m.totalDistance ≤ r.totalDistance) ∧
      (∀ r ∈ l₁, m.totalDistance < r.totalDistance) :=
  ⟨by simp, selectShortest_min_stable [⟨5, 10, []⟩, ⟨3, 7, []⟩] (by simp)⟩

/-- C8 counterexample: on two candidates with equal total distance 3 and
total times 100 and 50, the selection keeps the first candidate (total time
100), not the one with minimum duration, so exact-distance ties are not
broken by minimum duration. -/
theorem selectShortest_tie_ignores_duration :
    selectShortest [⟨3, 100, []⟩, ⟨3, 50, []⟩] = some ⟨3, 100, []⟩ ∧
    (⟨3, 100, []⟩ : LrmRoute).totalDistance = (⟨3, 50, []⟩ : LrmRoute).totalDistance ∧
    (⟨3, 50, []⟩ : LrmRoute).totalTime < (⟨3, 100, []⟩ : LrmRoute).totalTime := by
  refine ⟨?_, rfl, by norm_num⟩
  simp [selectShortest, runningMin]

theorem find?_first_of_split {α : Type} (p : α → Bool) (l₁ l₂ : List α) (m : α)
    (h₁ : ∀ r ∈ l₁, ¬ p r = true) (h₂ : p m = true) :
    (l₁ ++ m :: l₂).find? p = some m := by
  induction l₁ with
  | nil =>
    simp only [List.nil_append]
    exact List.find?_cons_of_pos l₂ h₂
  | cons a t ih =>
    simp only [List.cons_append]
    rw [List.find?_cons_of_neg _ (h₁ a (List.mem_cons_self a t))]
    exact ih (fun r hr => h₁ r (List.mem_cons_of_mem a hr))

/-- C8 amended: when the provider returns one or more candidates, the
selection returns the earliest-listed candidate of minimum total distance;
exact-distance ties are broken by first-seen order alone, with no
duration-based tie-break. -/
theorem selectShortest_eq_firstMin (routes : List LrmRoute) :
    selectShortest routes = firstMinByDistance routes := by
  cases routes with
  | nil => rfl
  | cons r0 rest =>
    obtain ⟨m, l₁, l₂, hsel, hdec, hmin, hstrict⟩ := selectShortest_split r0 rest
    rw [hsel]
    show some m = firstMinByDistance (r0 :: rest)
    simp only [firstMinByDistance]
    rw [hdec]
    symm
    apply find?_first_of_split
    · intro r hr
      simp only [isMinIn]
      intro hall
      have hle := List.all_eq_true.mp hall m
        (List.mem_append_right l₁ (List.mem_cons_self m l₂))
      rw [decide_eq_true_eq] at hle
      exact absurd hle (not_le.mpr (hstrict r hr))
    · simp only [isMinIn]
      apply List.all_eq_true.mpr
      intro s hs
      rw [decide_eq_true_eq]
      exact hmin s (by rw [hdec]; exact hs)

end LastMile
